import Mathlib

/-!
Shallow embedding of the surface representation and projection engine of the
rwalk-surface repository (src/surface.h, src/surface.cpp), with the claims of
the specification settled as theorems.

Modelling conventions:
* C++ `double` values are modelled as exact real numbers (`ℝ`); the loops,
  guards and arithmetic are translated literally from src/surface.cpp.
* The raw owned array `_data` together with `_nPoints` is modelled as a
  `List Point`; `_phi` (a `std::function` that may be `nullptr`) is modelled
  as `Option (ℝ → ℝ → ℝ → ℝ)`.
* Operations that throw (`Surface::project`, `Surface::snap`) return
  `Except String Point`, carrying the message of the `std::runtime_error`.
* A C++ cast `(int)x` truncates toward zero; it is modelled by `itrunc`.
* The scan loop of the sampling constructor is modelled twice: `scan1D` is a
  fuel-indexed literal transcription of `for (double i = min; i < max; i += h)`
  whose `none` result for every fuel models non-termination, and `axisPoints`
  is the closed form of the same loop; `scan1D_complete` proves that for
  `h > 0` the loop terminates with exactly the closed-form list.
-/

namespace RWalk

noncomputable section

open Classical

/-- Modelled from the spec: the `Point` value type of `utils.hpp` (a file of
this repository not present under src/) — three real coordinates x, y, z,
as used throughout src/surface.cpp and src/main.cpp. -/
structure Point where
  x : ℝ
  y : ℝ
  z : ℝ
deriving Inhabited

/-- Modelled from the spec: the `Interval` value type of `utils.hpp` (a file
of this repository not present under src/) — a (min, max) pair of reals per
axis, accessed as `x.min`, `x.max` in src/surface.cpp. -/
structure Interval where
  min : ℝ
  max : ℝ

/-- C++ `(int)` conversion of a floating value: truncation toward zero. -/
def itrunc (r : ℝ) : ℤ :=
  if 0 ≤ r then ⌊r⌋ else ⌈r⌉

/-- The Surface object state: `_data`/`_nPoints` as a list, `_phi` (nullable
`std::function`) as an option, `_h` (in-class default 0). -/
structure Surface where
  data : List Point
  phi : Option (ℝ → ℝ → ℝ → ℝ)
  h : ℝ

/-- surface.cpp line 26: `int domainPoints = (x.max - x.min)*(y.max - y.min)*(z.max - z.min)/(h*h*h);`
— the volumetric estimate used to size the fixed temporary buffer. -/
def domainPoints (x y z : Interval) (h : ℝ) : ℤ :=
  itrunc ((x.max - x.min) * (y.max - y.min) * (z.max - z.min) / (h * h * h))

/-- surface.cpp line 29: `double delta = 1.1 * sqrt(3) * h;` — the
narrow-band half-width. -/
def delta (h : ℝ) : ℝ :=
  1.1 * Real.sqrt 3 * h

/-- Literal transcription of the scan loop `for (double i = min; i < max; i += h)`
of surface.cpp lines 31-41, collecting the visited abscissas: fuel-indexed so
that a loop that does not terminate is `none` for every fuel. -/
def scan1D (fuel : ℕ) (i mx h : ℝ) : Option (List ℝ) :=
  match fuel with
  | 0 => none
  | fuel + 1 =>
    if i < mx then (scan1D fuel (i + h) mx h).map (fun l => i :: l) else some []

/-- Number of iterations of the scan loop from `mn` with bound `mx` and
step `h > 0`: the naturals n with `mn + n*h < mx`. -/
def axisCount (mn mx h : ℝ) : ℕ :=
  (⌈(mx - mn) / h⌉).toNat

/-- Closed form of the abscissas visited by the scan loop of surface.cpp
lines 31-41 for positive step: `mn, mn + h, mn + 2h, ...` while `< mx`
(justified against the literal loop by `scan1D_complete`). -/
def axisPoints (mn mx h : ℝ) : List ℝ :=
  (List.range (axisCount mn mx h)).map (fun n : ℕ => mn + (n : ℝ) * h)

/-- The accepted sample points of the nested scan of surface.cpp lines 31-41:
a point (i,j,k) is kept when `dist > -delta && dist < delta` for
`dist = phi(i,j,k)`. -/
def samplePoints (phi : ℝ → ℝ → ℝ → ℝ) (x y z : Interval) (h : ℝ) : List Point :=
  (axisPoints x.min x.max h).flatMap fun i =>
    (axisPoints y.min y.max h).flatMap fun j =>
      ((axisPoints z.min z.max h).map fun k => (⟨i, j, k⟩ : Point)).filter fun p =>
        decide (phi p.x p.y p.z > -(delta h) ∧ phi p.x p.y p.z < delta h)

/-- surface.cpp lines 20-46: the sampling constructor
`Surface(phi, x, y, z, h)` — retains the accepted points, the field and the
spacing. -/
def surfaceFromField (phi : ℝ → ℝ → ℝ → ℝ) (x y z : Interval) (h : ℝ) : Surface :=
  ⟨samplePoints phi x y z h, some phi, h⟩

/-- surface.cpp lines 8-12: `Surface(int nPoints, Point data)` — n copies of
one point; `_phi` and `_h` keep their in-class defaults (nullptr, 0). -/
def surfaceFromRepeated (n : ℕ) (p : Point) : Surface :=
  ⟨List.replicate n p, none, 0⟩

/-- surface.cpp lines 14-18: `Surface(int nPoints, Point* data)` — deep copy
of a supplied sequence; `_phi` and `_h` keep their in-class defaults. -/
def surfaceFromArray (l : List Point) : Surface :=
  ⟨l, none, 0⟩

/-- The default-constructed Surface `Surface()` (surface.h line 18 defaults:
nPoints = 0, data = Point{}). -/
def defaultSurface : Surface :=
  surfaceFromRepeated 0 ⟨0, 0, 0⟩

/-- surface.cpp lines 48-52: the copy constructor — copies `_nPoints` and
`_data` only; `_phi` and `_h` of the new object keep their in-class defaults
(nullptr, 0). -/
def copyCtor (src : Surface) : Surface :=
  ⟨src.data, none, 0⟩

/-- surface.cpp lines 61-75: copy assignment — copies the point data into the
destination; the destination's `_phi` and `_h` are left untouched. Returns
the new state of the destination. -/
def copyAssign (dst src : Surface) : Surface :=
  ⟨src.data, dst.phi, dst.h⟩

/-- surface.cpp lines 54-59: the move constructor — the new object takes
`_nPoints` and `_data` (its `_phi`, `_h` keep the in-class defaults); the
source is left with nPoints 0 and null data, but its `_phi` and `_h` are not
touched. Returns (destination, new state of source). -/
def moveCtor (src : Surface) : Surface × Surface :=
  (⟨src.data, none, 0⟩, ⟨[], src.phi, src.h⟩)

/-- surface.cpp lines 77-89: move assignment — the destination takes the
source's data (keeping its own `_phi`, `_h`); the source keeps its `_phi`,
`_h` but loses its points. Returns (new destination, new source). -/
def moveAssign (dst src : Surface) : Surface × Surface :=
  (⟨src.data, dst.phi, dst.h⟩, ⟨[], src.phi, src.h⟩)

/-- `nPoints()` accessor (surface.h line 43). -/
def Surface.nPoints (s : Surface) : ℕ :=
  s.data.length

/-- `operator[]` (surface.h line 44): unchecked read of `_data[index]`
(meaningful for indices below `nPoints`). -/
def Surface.getPoint (s : Surface) (i : ℕ) : Point :=
  s.data.getD i ⟨0, 0, 0⟩

/-- Message of the exception thrown by `Surface::project` (surface.cpp
lines 97-98). -/
def projectErr : String :=
  "Surface::project: phi function or h not defined. The surface needs to be constructed using a function to use project method."

/-- Message of the exception thrown by `Surface::snap` (surface.cpp
line 127). -/
def snapErr : String :=
  "Surface::snap: surface has no points."

/-- surface.cpp lines 105-108: the central finite-difference gradient
estimate of the field at p with offset h. -/
def gradientAt (f : ℝ → ℝ → ℝ → ℝ) (h : ℝ) (p : Point) : ℝ × ℝ × ℝ :=
  ((f (p.x + h) p.y p.z - f (p.x - h) p.y p.z) / (2 * h),
   (f p.x (p.y + h) p.z - f p.x (p.y - h) p.z) / (2 * h),
   (f p.x p.y (p.z + h) - f p.x p.y (p.z - h)) / (2 * h))

/-- surface.cpp lines 101-122: the body of `Surface::project` after the
configuration guard. -/
def projectPoint (f : ℝ → ℝ → ℝ → ℝ) (h : ℝ) (p : Point) : Point :=
  let g := gradientAt f h p
  if g.1 = 0 ∧ g.2.1 = 0 ∧ g.2.2 = 0 then p
  else
    let norm := Real.sqrt (g.1 * g.1 + g.2.1 * g.2.1 + g.2.2 * g.2.2)
    let dist := f p.x p.y p.z
    ⟨p.x - g.1 * dist / norm, p.y - g.2.1 * dist / norm, p.z - g.2.2 * dist / norm⟩

/-- surface.cpp lines 95-123: `Surface::project` — throws when
`_phi == nullptr || _h == 0`, otherwise one gradient-projection step. -/
def Surface.project (s : Surface) (p : Point) : Except String Point :=
  match s.phi with
  | none => .error projectErr
  | some f => if s.h = 0 then .error projectErr else .ok (projectPoint f s.h p)

/-- One coordinate of `Surface::snap` (surface.cpp lines 131-133):
`(int)((c/_h)+0.5)*_h`. -/
def snapCoord (h c : ℝ) : ℝ :=
  (itrunc (c / h + 0.5) : ℝ) * h

/-- surface.cpp lines 125-136: `Surface::snap` — throws when `_nPoints == 0`,
otherwise quantizes each coordinate independently. -/
def Surface.snap (s : Surface) (p : Point) : Except String Point :=
  if s.data.length = 0 then .error snapErr
  else .ok ⟨snapCoord s.h p.x, snapCoord s.h p.y, snapCoord s.h p.z⟩

/-- From the spec's words (§4.4): round-half-up of a scaled value,
`round(s) = ⌊s + 1/2⌋`. -/
def roundHalfUp (s : ℝ) : ℤ :=
  ⌊s + 1 / 2⌋

/-- From the spec's words (§4.4): quantization of each coordinate of p to the
nearest multiple of h, `round(p.x/h)·h` with round-half-up semantics on the
scaled value. -/
def snapSpecified (h : ℝ) (p : Point) : Point :=
  ⟨(roundHalfUp (p.x / h) : ℝ) * h,
   (roundHalfUp (p.y / h) : ℝ) * h,
   (roundHalfUp (p.z / h) : ℝ) * h⟩

/-- From the spec's words (§4.3): the projection step — central-difference
gradient g; if g = (0,0,0) exactly return p unchanged; otherwise return
`p − g·(dist/norm)` with `dist = phi(p)`, `norm = ‖g‖`. -/
def projectSpecified (f : ℝ → ℝ → ℝ → ℝ) (h : ℝ) (p : Point) : Point :=
  let g := gradientAt f h p
  if g = (0, 0, 0) then p
  else
    let dist := f p.x p.y p.z
    let norm := Real.sqrt (g.1 ^ 2 + g.2.1 ^ 2 + g.2.2 ^ 2)
    ⟨p.x - g.1 * (dist / norm), p.y - g.2.1 * (dist / norm), p.z - g.2.2 * (dist / norm)⟩

/-- The zero field (accepts every grid point into the band), used for
concrete instances. -/
def phi0 : ℝ → ℝ → ℝ → ℝ :=
  fun _ _ _ => 0

/-- The unit interval [0,1]. -/
def I01 : Interval :=
  ⟨0, 1⟩

/-- The empty interval [0,0): its scan loop performs no iteration. -/
def IEmpty : Interval :=
  ⟨0, 0⟩

/-- A concrete nonempty Surface built by the sampling constructor:
zero field over [0,1]³ with spacing 1; its single sample is (0,0,0). -/
def surf1 : Surface :=
  surfaceFromField phi0 I01 I01 I01 1

/-- A Surface built by the sampling constructor over an empty domain with
negative spacing −1: the loops run zero times, the field and spacing are
retained. -/
def surfNeg : Surface :=
  surfaceFromField phi0 IEmpty IEmpty IEmpty (-1)

/-- A Surface built by the sampling constructor over an empty domain with
spacing 1: no points, but field and spacing retained. -/
def surfE : Surface :=
  surfaceFromField phi0 IEmpty IEmpty IEmpty 1

/-- The Surface built by the raw repeated-point constructor
`Surface(3, Point{1,1,1})`: three points, no field, spacing 0. -/
def surfR : Surface :=
  surfaceFromRepeated 3 ⟨1, 1, 1⟩

/-! Supporting lemmas. -/

theorem delta_pos {h : ℝ} (hh : 0 < h) : 0 < delta h := by
  unfold delta
  positivity

theorem axisCount_pos_of_lt {i mx h : ℝ} (hh : 0 < h) (hi : i < mx) :
    0 < axisCount i mx h := by
  unfold axisCount
  have hq : 0 < (mx - i) / h := div_pos (by linarith) hh
  have h1 : 0 < ⌈(mx - i) / h⌉ := Int.ceil_pos.mpr hq
  omega

theorem axisCount_zero_of_ge {i mx h : ℝ} (hh : 0 < h) (hi : ¬i < mx) :
    axisCount i mx h = 0 := by
  unfold axisCount
  have hq : (mx - i) / h ≤ 0 :=
    div_nonpos_of_nonpos_of_nonneg (by linarith) (le_of_lt hh)
  have h1 : ⌈(mx - i) / h⌉ ≤ 0 := Int.ceil_le.mpr (by exact_mod_cast hq)
  omega

theorem axisCount_step {i mx h : ℝ} (hh : 0 < h) :
    axisCount (i + h) mx h = axisCount i mx h - 1 := by
  unfold axisCount
  have hne : h ≠ 0 := ne_of_gt hh
  have hdiv : (mx - (i + h)) / h = (mx - i) / h - 1 := by
    field_simp
    ring
  rw [hdiv, Int.ceil_sub_one]
  omega

/-- For positive spacing, the literal scan loop terminates (with fuel one
more than the iteration count) and produces exactly the closed-form abscissa
list `axisPoints`. -/
theorem scan1D_eq_axisPoints (mx h : ℝ) (hh : 0 < h) :
    ∀ fuel i, axisCount i mx h < fuel →
      scan1D fuel i mx h = some (axisPoints i mx h) := by
  intro fuel
  induction fuel with
  | zero => intro i hlt; omega
  | succ f ih =>
    intro i hlt
    by_cases hi : i < mx
    · have hcpos : 0 < axisCount i mx h := axisCount_pos_of_lt hh hi
      have hstep : axisCount (i + h) mx h = axisCount i mx h - 1 :=
        axisCount_step hh
      rw [scan1D, if_pos hi, ih (i + h) (by omega)]
      have hcons : i :: axisPoints (i + h) mx h = axisPoints i mx h := by
        unfold axisPoints
        rw [hstep]
        obtain ⟨k, hk⟩ : ∃ k, axisCount i mx h = k + 1 :=
          ⟨axisCount i mx h - 1, by omega⟩
        rw [hk]
        simp only [Nat.add_sub_cancel]
        rw [List.range_succ_eq_map]
        simp only [List.map_cons, List.map_map]
        refine List.cons_eq_cons.mpr ⟨by norm_num, ?_⟩
        apply List.map_congr_left
        intro a _
        simp only [Function.comp_apply]
        push_cast
        ring
      rw [← hcons]
      rfl
    · have hc0 : axisCount i mx h = 0 := axisCount_zero_of_ge hh hi
      rw [scan1D, if_neg hi]
      unfold axisPoints
      rw [hc0]
      rfl

/-- Convenience form: the scan loop with sufficient fuel computes
`axisPoints`. -/
theorem scan1D_complete (mn mx h : ℝ) (hh : 0 < h) :
    scan1D (axisCount mn mx h + 1) mn mx h = some (axisPoints mn mx h) :=
  scan1D_eq_axisPoints mx h hh _ mn (Nat.lt_succ_self _)

/-- Every point stored by the sampling scan lies strictly inside the narrow
band. -/
theorem mem_samplePoints_band {f : ℝ → ℝ → ℝ → ℝ} {x y z : Interval} {h : ℝ}
    {p : Point} (hp : p ∈ samplePoints f x y z h) :
    -(delta h) < f p.x p.y p.z ∧ f p.x p.y p.z < delta h := by
  unfold samplePoints at hp
  simp only [List.mem_flatMap, List.mem_filter, List.mem_map] at hp
  obtain ⟨i, -, j, -, hmem⟩ := hp
  obtain ⟨-, hband⟩ := hmem
  rw [decide_eq_true_eq] at hband
  exact ⟨hband.1, hband.2⟩

theorem axisPoints_length (mn mx h : ℝ) :
    (axisPoints mn mx h).length = axisCount mn mx h := by
  unfold axisPoints
  simp

theorem sum_map_const {α : Type} (l : List α) (c : ℕ) :
    (l.map fun _ => c).sum = l.length * c := by
  induction l with
  | nil => simp
  | cons a l ih => simp [ih]; ring

/-- When every grid point passes the band test, the sampler keeps the whole
grid: its size is the product of the per-axis iteration counts. -/
theorem samplePoints_length_of_allaccept (phi : ℝ → ℝ → ℝ → ℝ)
    (x y z : Interval) (h : ℝ)
    (hacc : ∀ p : Point, phi p.x p.y p.z > -(delta h) ∧ phi p.x p.y p.z < delta h) :
    (samplePoints phi x y z h).length =
      axisCount x.min x.max h * (axisCount y.min y.max h * axisCount z.min z.max h) := by
  unfold samplePoints
  have hfilter : ∀ i j : ℝ,
      (((axisPoints z.min z.max h).map fun k => (⟨i, j, k⟩ : Point)).filter fun p =>
        decide (phi p.x p.y p.z > -(delta h) ∧ phi p.x p.y p.z < delta h)) =
      ((axisPoints z.min z.max h).map fun k => (⟨i, j, k⟩ : Point)) := by
    intro i j
    refine List.filter_eq_self.mpr ?_
    intro p _
    rw [decide_eq_true_eq]
    exact hacc p
  simp only [hfilter]
  rw [List.length_flatMap]
  simp only [Function.comp_def, List.length_flatMap, List.length_map, axisPoints_length]
  rw [sum_map_const, sum_map_const, axisPoints_length, axisPoints_length]

theorem axisCount_unit : axisCount 0 1 1 = 1 := by
  unfold axisCount
  norm_num

theorem axisPoints_unit : axisPoints 0 1 1 = [0] := by
  unfold axisPoints
  rw [axisCount_unit]
  simp [List.range_succ]

/-- The zero field is accepted everywhere once the band half-width is
positive. -/
theorem phi0_allaccept {h : ℝ} (hh : 0 < h) (p : Point) :
    phi0 p.x p.y p.z > -(delta h) ∧ phi0 p.x p.y p.z < delta h := by
  have hδ : 0 < delta h := delta_pos hh
  simp only [phi0]
  constructor <;> linarith

theorem surf1_data : surf1.data = [(⟨0, 0, 0⟩ : Point)] := by
  show samplePoints phi0 I01 I01 I01 1 = _
  unfold samplePoints I01
  rw [axisPoints_unit]
  simp only [List.flatMap_cons, List.flatMap_nil, List.append_nil,
    List.map_cons, List.map_nil]
  refine List.filter_eq_self.mpr ?_
  intro p hp
  rw [List.mem_singleton] at hp
  subst hp
  rw [decide_eq_true_eq]
  exact phi0_allaccept one_pos _

theorem surf1_mem : (⟨0, 0, 0⟩ : Point) ∈ surf1.data := by
  rw [surf1_data]
  exact List.mem_singleton.mpr rfl

theorem surf1_ne_nil : surf1.data ≠ [] := by
  rw [surf1_data]
  exact List.cons_ne_nil _ _

theorem surf1_length : surf1.data.length = 1 := by
  rw [surf1_data]
  rfl

/-! Concrete truncation evaluations used by the snap counterexamples. -/

theorem itrunc_floor {r : ℝ} (h : 0 ≤ r) : itrunc r = ⌊r⌋ := by
  unfold itrunc
  exact if_pos h

theorem itrunc_ceil {r : ℝ} (h : ¬0 ≤ r) : itrunc r = ⌈r⌉ := by
  unfold itrunc
  exact if_neg h

theorem snapCoord_eval_m7over10 : snapCoord 1 (-(7/10)) = 0 := by
  unfold snapCoord
  have hc : (-(7/10) : ℝ) / 1 + 0.5 = -(1/5) := by norm_num
  rw [hc, itrunc_ceil (by norm_num)]
  have : (⌈(-(1/5) : ℝ)⌉ : ℤ) = 0 := by norm_num [Int.ceil_eq_iff]
  rw [this]
  norm_num

theorem snapCoord_eval_zero : snapCoord 1 0 = 0 := by
  unfold snapCoord
  have hc : (0 : ℝ) / 1 + 0.5 = 1/2 := by norm_num
  rw [hc, itrunc_floor (by norm_num)]
  have : (⌊(1/2 : ℝ)⌋ : ℤ) = 0 := by norm_num [Int.floor_eq_iff]
  rw [this]
  norm_num

theorem snapCoord_eval_m2 : snapCoord 1 (-2) = -1 := by
  unfold snapCoord
  have hc : (-2 : ℝ) / 1 + 0.5 = -(3/2) := by norm_num
  rw [hc, itrunc_ceil (by norm_num)]
  have : (⌈(-(3/2) : ℝ)⌉ : ℤ) = -1 := by norm_num [Int.ceil_eq_iff]
  rw [this]
  norm_num

theorem snapCoord_eval_m1 : snapCoord 1 (-1) = 0 := by
  unfold snapCoord
  have hc : (-1 : ℝ) / 1 + 0.5 = -(1/2) := by norm_num
  rw [hc, itrunc_ceil (by norm_num)]
  have : (⌈(-(1/2) : ℝ)⌉ : ℤ) = 0 := by norm_num [Int.ceil_eq_iff]
  rw [this]
  norm_num

/-! The claims. -/

/-- C1: the claim says the sampling constructor performs no out-of-bounds
write even when the number of accepted points exceeds the volumetric estimate
`(Δx·Δy·Δz)/h³`; the code (surface.cpp lines 26-27, 36) instead allocates a
fixed buffer of exactly that estimate and writes each accepted point at the
next index. At phi ≡ 0 over [0,1]³ with h = 3/10 the estimate truncates to
37 while 4·4·4 = 64 grid points are visited and all accepted, so writes 38
through 64 land outside the buffer. This theorem evaluates both numbers at
that failing input. -/
theorem C1_fixed_buffer_overflow :
    domainPoints I01 I01 I01 (3/10) = 37 ∧
    (samplePoints phi0 I01 I01 I01 (3/10)).length = 64 := by
  constructor
  · unfold domainPoints I01
    have harg : ((1 : ℝ) - 0) * (1 - 0) * (1 - 0) / ((3/10) * (3/10) * (3/10)) =
        1000 / 27 := by norm_num
    rw [harg, itrunc_floor (by norm_num)]
    norm_num [Int.floor_eq_iff]
  · rw [samplePoints_length_of_allaccept phi0 I01 I01 I01 (3/10)
      (phi0_allaccept (by norm_num))]
    have hcount : axisCount I01.min I01.max (3/10) = 4 := by
      unfold axisCount I01
      have harg : ((1 : ℝ) - 0) / (3/10) = 10/3 := by norm_num
      rw [harg]
      have : (⌈(10/3 : ℝ)⌉ : ℤ) = 4 := by norm_num [Int.ceil_eq_iff]
      rw [this]
      rfl
    rw [hcount]

/-- C5: the claim says the sampling constructor rejects non-positive spacing
before scanning. The code (surface.cpp lines 20-46) contains no such check:
with h = 0 the loop increment leaves i unchanged and with h < 0 it decreases
i, so for a nonempty axis range the literal scan loop never terminates (it
returns `none` at every fuel); with h = 0 the code moreover divides by zero
computing `domainPoints` and `delta`. -/
theorem C5_sampler_scan_diverges :
    (∀ fuel : ℕ, scan1D fuel 0 10 0 = none) ∧
    (∀ fuel : ℕ, scan1D fuel 0 10 (-(1/10)) = none) := by
  have key : ∀ (mx : ℝ), 0 < mx → ∀ (fuel : ℕ) (i h : ℝ), h ≤ 0 → i ≤ 0 →
      scan1D fuel i mx h = none := by
    intro mx hmx fuel
    induction fuel with
    | zero => intro i h _ _; rfl
    | succ f ih =>
      intro i h hh hi
      rw [scan1D, if_pos (lt_of_le_of_lt hi hmx)]
      rw [ih (i + h) h hh (by linarith)]
      rfl
  constructor <;> intro fuel
  · exact key 10 (by norm_num) fuel 0 0 le_rfl le_rfl
  · exact key 10 (by norm_num) fuel 0 (-(1/10)) (by norm_num) le_rfl

/-- C2: every point stored by the sampling constructor satisfies
|phi(p)| < 1.1·√3·h, read back through `operator[]` at any index below
`nPoints()`; the model has no operation mutating the stored list after
construction, so the bound holds for the Surface's whole life. -/
theorem C2_narrow_band (f : ℝ → ℝ → ℝ → ℝ) (x y z : Interval) (h : ℝ) (i : ℕ)
    (hi : i < (surfaceFromField f x y z h).nPoints) :
    |f ((surfaceFromField f x y z h).getPoint i).x
       ((surfaceFromField f x y z h).getPoint i).y
       ((surfaceFromField f x y z h).getPoint i).z| < 1.1 * Real.sqrt 3 * h := by
  have hi' : i < (surfaceFromField f x y z h).data.length := hi
  have hget : (surfaceFromField f x y z h).getPoint i =
      (surfaceFromField f x y z h).data.get ⟨i, hi'⟩ := by
    unfold Surface.getPoint
    exact List.getD_eq_getElem _ _ hi'
  have hmem : (surfaceFromField f x y z h).getPoint i ∈
      (surfaceFromField f x y z h).data := by
    rw [hget]
    exact List.get_mem _ _ hi'
  have hband := mem_samplePoints_band
    (show (surfaceFromField f x y z h).getPoint i ∈ samplePoints f x y z h from hmem)
  unfold delta at hband
  rw [abs_lt]
  exact ⟨by linarith [hband.1], hband.2⟩

/-- Witness for C2 at the concrete surface `surf1` and index 0. -/
theorem C2_narrow_band_witness :
    0 < (surfaceFromField phi0 I01 I01 I01 1).nPoints ∧
    |phi0 ((surfaceFromField phi0 I01 I01 I01 1).getPoint 0).x
          ((surfaceFromField phi0 I01 I01 I01 1).getPoint 0).y
          ((surfaceFromField phi0 I01 I01 I01 1).getPoint 0).z| <
      1.1 * Real.sqrt 3 * 1 := by
  have hpos : 0 < (surfaceFromField phi0 I01 I01 I01 1).nPoints := by
    show 0 < (surfaceFromField phi0 I01 I01 I01 1).data.length
    rw [show (surfaceFromField phi0 I01 I01 I01 1).data = surf1.data from rfl,
      surf1_length]
    norm_num
  exact ⟨hpos, C2_narrow_band phi0 I01 I01 I01 1 0 hpos⟩

/-- C3 counterexample: on `surf1` (spacing 1, nonempty) at the point
(−0.7, 0, 0), the code's snap truncates (−0.7 + 0.5) toward zero and returns
(0, 0, 0), while the claimed round-half-up quantization to the nearest
multiple of h gives (−1, 0, 0); so the claim fails for negative
coordinates. -/
theorem C3_counterexample :
    surf1.snap ⟨-(7/10), 0, 0⟩ = Except.ok (⟨0, 0, 0⟩ : Point) ∧
    snapSpecified surf1.h ⟨-(7/10), 0, 0⟩ = (⟨-1, 0, 0⟩ : Point) ∧
    (⟨0, 0, 0⟩ : Point) ≠ (⟨-1, 0, 0⟩ : Point) := by
  refine ⟨?_, ?_, ?_⟩
  · unfold Surface.snap
    rw [if_neg (by rw [surf1_length]; norm_num)]
    rw [show surf1.h = 1 from rfl]
    simp only [snapCoord_eval_m7over10, snapCoord_eval_zero]
  · unfold snapSpecified roundHalfUp
    rw [show surf1.h = 1 from rfl]
    simp only [Point.mk.injEq]
    have h1 : ((-(7/10) : ℝ)) / 1 + 1 / 2 = -(1/5) := by norm_num
    have h2 : ((0 : ℝ)) / 1 + 1 / 2 = 1/2 := by norm_num
    rw [h1, h2]
    have h3 : (⌊(-(1/5) : ℝ)⌋ : ℤ) = -1 := by norm_num [Int.floor_eq_iff]
    have h4 : (⌊(1/2 : ℝ)⌋ : ℤ) = 0 := by norm_num [Int.floor_eq_iff]
    rw [h3, h4]
    norm_num
  · simp only [ne_eq, Point.mk.injEq]
    norm_num

/-- C3 amended: snap quantizes each coordinate of p independently of the
stored point set, as trunc(p.c/h + 0.5)·h with truncation toward zero; this
equals the claimed round-half-up quantization round(p.c/h)·h exactly when
each scaled coordinate satisfies p.c/h + 1/2 ≥ 0 (so in particular for
nonnegative coordinates with positive spacing), and snap depends on the
stored points only through their count being nonzero. -/
theorem C3_snap_quantizes (s : Surface) (p : Point) (hne : s.data ≠ [])
    (hx : 0 ≤ p.x / s.h + 0.5) (hy : 0 ≤ p.y / s.h + 0.5)
    (hz : 0 ≤ p.z / s.h + 0.5) :
    s.snap p = Except.ok (snapSpecified s.h p) ∧
    (∀ t : Surface, t.h = s.h → t.data ≠ [] → t.snap p = s.snap p) := by
  have hlen : ¬s.data.length = 0 := fun hc => hne (List.length_eq_zero.mp hc)
  constructor
  · unfold Surface.snap
    rw [if_neg hlen]
    unfold snapSpecified snapCoord roundHalfUp
    have hhalf : (0.5 : ℝ) = 1 / 2 := by norm_num
    rw [itrunc_floor hx, itrunc_floor hy, itrunc_floor hz, hhalf]
  · intro t hth htne
    have htlen : ¬t.data.length = 0 := fun hc => htne (List.length_eq_zero.mp hc)
    unfold Surface.snap
    rw [if_neg hlen, if_neg htlen, hth]

/-- Witness for C3's amended statement on `surf1` at (1/4, 0, 0). -/
theorem C3_snap_quantizes_witness :
    surf1.snap ⟨1/4, 0, 0⟩ = Except.ok (snapSpecified surf1.h ⟨1/4, 0, 0⟩) ∧
    (∀ t : Surface, t.h = surf1.h → t.data ≠ [] →
      t.snap ⟨1/4, 0, 0⟩ = surf1.snap ⟨1/4, 0, 0⟩) :=
  C3_snap_quantizes surf1 ⟨1/4, 0, 0⟩ surf1_ne_nil
    (by show (0:ℝ) ≤ 1/4 / 1 + 0.5; norm_num)
    (by show (0:ℝ) ≤ 0 / 1 + 0.5; norm_num)
    (by show (0:ℝ) ≤ 0 / 1 + 0.5; norm_num)

/-- The code's projection step equals the spec's formula: central-difference
gradient; identity when the gradient is exactly zero; otherwise
`p − g·(dist/norm)`. -/
theorem projectPoint_eq_specified (f : ℝ → ℝ → ℝ → ℝ) (h : ℝ) (p : Point) :
    projectPoint f h p = projectSpecified f h p := by
  unfold projectPoint projectSpecified
  generalize gradientAt f h p = g
  obtain ⟨g1, g2, g3⟩ := g
  simp only [Prod.mk.injEq]
  by_cases hc : g1 = 0 ∧ g2 = 0 ∧ g3 = 0
  · rw [if_pos hc, if_pos hc]
  · rw [if_neg hc, if_neg hc]
    have hnorm : Real.sqrt (g1 * g1 + g2 * g2 + g3 * g3) =
        Real.sqrt (g1 ^ 2 + g2 ^ 2 + g3 ^ 2) := by
      ring_nf
    simp only [hnorm, Point.mk.injEq, mul_div_assoc]

/-- C4: on a Surface with a retained field and nonzero spacing, `project`
returns exactly the spec's single gradient step: the central-difference
gradient with offset h per axis, p unchanged when that gradient is exactly
(0,0,0), and `p − g·(phi(p)/‖g‖)` otherwise; in particular a point with
phi(p) = 0 and nonzero gradient is a fixed point. -/
theorem C4_project_formula (s : Surface) (f : ℝ → ℝ → ℝ → ℝ) (p : Point)
    (hphi : s.phi = some f) (hh : ¬s.h = 0) :
    s.project p = Except.ok (projectSpecified f s.h p) ∧
    (gradientAt f s.h p = (0, 0, 0) → projectSpecified f s.h p = p) ∧
    (f p.x p.y p.z = 0 → gradientAt f s.h p ≠ (0, 0, 0) →
      projectSpecified f s.h p = p) := by
  refine ⟨?_, ?_, ?_⟩
  · have hstep : s.project p =
        if s.h = 0 then Except.error projectErr else Except.ok (projectPoint f s.h p) := by
      unfold Surface.project
      rw [hphi]
    rw [hstep, if_neg hh, projectPoint_eq_specified]
  · intro hg
    unfold projectSpecified
    rw [hg]
    simp
  · intro hdist hg
    unfold projectSpecified
    rw [if_neg hg, hdist]
    simp

/-- `Surface::project` on a surface with a retained field reduces to the
`_h == 0` guard. -/
theorem project_eq_of_some {s : Surface} {f : ℝ → ℝ → ℝ → ℝ}
    (hphi : s.phi = some f) (p : Point) :
    s.project p = if s.h = 0 then Except.error projectErr
      else Except.ok (projectPoint f s.h p) := by
  unfold Surface.project
  rw [hphi]

/-- `Surface::project` on a surface with no retained field always throws. -/
theorem project_eq_of_none {s : Surface} (hphi : s.phi = none) (p : Point) :
    s.project p = Except.error projectErr := by
  unfold Surface.project
  rw [hphi]

/-- Witness for C4 on `surf1` (field phi0, spacing 1) at (5,5,5). -/
theorem C4_project_formula_witness :
    surf1.project ⟨5, 5, 5⟩ = Except.ok (projectSpecified phi0 surf1.h ⟨5, 5, 5⟩) ∧
    (gradientAt phi0 surf1.h ⟨5, 5, 5⟩ = (0, 0, 0) →
      projectSpecified phi0 surf1.h ⟨5, 5, 5⟩ = ⟨5, 5, 5⟩) ∧
    (phi0 5 5 5 = 0 → gradientAt phi0 surf1.h ⟨5, 5, 5⟩ ≠ (0, 0, 0) →
      projectSpecified phi0 surf1.h ⟨5, 5, 5⟩ = ⟨5, 5, 5⟩) :=
  C4_project_formula surf1 phi0 ⟨5, 5, 5⟩ rfl (by show ¬(1:ℝ) = 0; norm_num)

/-- C6 counterexample: the raw-constructed Surface(3, Point{1,1,1}) has
spacing 0 (the in-class default) and a nonempty point set; `snap` on it does
not fail — the code's only guard is `_nPoints == 0` — contradicting the
claim that snap fails on every input whenever h is absent or zero. -/
theorem C6_counterexample :
    surfR.h = 0 ∧ (surfR.snap ⟨1, 1, 1⟩).isOk = true := by
  refine ⟨rfl, ?_⟩
  unfold Surface.snap
  rw [if_neg (by show ¬(List.replicate 3 (⟨1, 1, 1⟩ : Point)).length = 0; simp)]
  rfl

/-- C6 amended: with spacing absent or zero, `project` fails on every input
point, while `snap` fails exactly when the surface stores no points — its
guard never consults h. (On a nonempty surface with h = 0 the C++ code
divides by zero; the exact-real model returns the x/0 = 0 convention, but
the claim only concerns whether snap fails, which depends solely on the
point count.) -/
theorem C6_zero_spacing (s : Surface) (h0 : s.h = 0) :
    (∀ q : Point, s.project q = Except.error projectErr) ∧
    (∀ q : Point, (s.snap q = Except.error snapErr ↔ s.data = [])) := by
  constructor
  · intro q
    cases hphi : s.phi with
    | none => exact project_eq_of_none hphi q
    | some f => rw [project_eq_of_some hphi, if_pos h0]
  · intro q
    unfold Surface.snap
    by_cases hd : s.data.length = 0
    · rw [if_pos hd]
      simp [List.length_eq_zero.mp hd]
    · rw [if_neg hd]
      refine ⟨fun hco => by simp at hco, fun hnil => ?_⟩
      exact absurd (List.length_eq_zero.mpr hnil) hd

/-- Witness for C6's amended statement on Surface(3, Point{1,1,1}). -/
theorem C6_zero_spacing_witness :
    (∀ q : Point, surfR.project q = Except.error projectErr) ∧
    (∀ q : Point, (surfR.snap q = Except.error snapErr ↔ surfR.data = [])) :=
  C6_zero_spacing surfR rfl

/-- Evaluation of `Except.isOk` on the ok constructor. -/
theorem isOk_ok (a : Point) : (Except.ok a : Except String Point).isOk = true :=
  rfl

/-- Evaluation of `Except.isOk` on the error constructor. -/
theorem isOk_error (e : String) :
    (Except.error e : Except String Point).isOk = false :=
  rfl

/-- C7 amended: `project` succeeds (reaches the gradient computation) if and
only if the Surface has a retained field and a nonzero — not necessarily
positive — spacing; it fails with the "no field configured" error exactly
when the field is absent or the spacing equals zero. -/
theorem C7_project_guard (s : Surface) (p : Point) :
    ((s.project p).isOk = true ↔ (s.phi ≠ none ∧ ¬s.h = 0)) ∧
    ((s.project p).isOk = false ↔ s.project p = Except.error projectErr) := by
  constructor
  · cases hphi : s.phi with
    | none =>
      rw [project_eq_of_none hphi]
      simp [isOk_error]
    | some f =>
      rw [project_eq_of_some hphi]
      by_cases hh : s.h = 0
      · rw [if_pos hh]
        simp [isOk_error, hh]
      · rw [if_neg hh]
        simp [isOk_ok, hh]
  · cases hphi : s.phi with
    | none =>
      rw [project_eq_of_none hphi]
      simp [isOk_error]
    | some f =>
      rw [project_eq_of_some hphi]
      by_cases hh : s.h = 0
      · rw [if_pos hh]
        simp [isOk_error]
      · rw [if_neg hh]
        simp [isOk_ok]

/-- C7 counterexample: the sampling constructor over an empty domain with
spacing −1 yields a Surface with a retained field and negative spacing;
`project` on it succeeds (the code's guard tests `_h == 0`, not `_h > 0`),
contradicting the claim that project fails for every non-positive
spacing. -/
theorem C7_counterexample :
    ¬(0 < surfNeg.h) ∧ (surfNeg.project ⟨0, 0, 0⟩).isOk = true := by
  constructor
  · show ¬((0:ℝ) < -1)
    norm_num
  · rw [project_eq_of_some (rfl : surfNeg.phi = some phi0) ⟨0, 0, 0⟩,
      if_neg (by show ¬(-1 : ℝ) = 0; norm_num)]
    rfl

/-- C8 counterexample: on `surf1` (spacing 1, nonempty), snapping (−2, 0, 0)
gives (−1, 0, 0) but snapping again gives (0, 0, 0) — truncation toward zero
moves negative snapped coordinates again — so snap is not idempotent. -/
theorem C8_counterexample :
    (surf1.snap ⟨-2, 0, 0⟩).bind surf1.snap ≠ surf1.snap ⟨-2, 0, 0⟩ := by
  have h1 : surf1.snap ⟨-2, 0, 0⟩ = Except.ok (⟨-1, 0, 0⟩ : Point) := by
    unfold Surface.snap
    rw [if_neg (by rw [surf1_length]; norm_num), show surf1.h = 1 from rfl]
    simp only [snapCoord_eval_m2, snapCoord_eval_zero]
  have h2 : surf1.snap ⟨-1, 0, 0⟩ = Except.ok (⟨0, 0, 0⟩ : Point) := by
    unfold Surface.snap
    rw [if_neg (by rw [surf1_length]; norm_num), show surf1.h = 1 from rfl]
    simp only [snapCoord_eval_m1, snapCoord_eval_zero]
  rw [h1]
  show surf1.snap ⟨-1, 0, 0⟩ ≠ Except.ok (⟨-1, 0, 0⟩ : Point)
  rw [h2]
  simp only [ne_eq, Except.ok.injEq, Point.mk.injEq]
  norm_num

/-- Each snapped coordinate is an integer multiple of the spacing. -/
theorem snapCoord_multiple (h c : ℝ) : ∃ n : ℤ, snapCoord h c = (n : ℝ) * h :=
  ⟨itrunc (c / h + 0.5), rfl⟩

/-- Snapping a coordinate already snapped to a nonnegative grid index is a
fixed point. -/
theorem snapCoord_idem {h c : ℝ} (hh : 0 < h) (hc : 0 ≤ c / h + 0.5) :
    snapCoord h (snapCoord h c) = snapCoord h c := by
  unfold snapCoord
  rw [itrunc_floor hc]
  set n := ⌊c / h + 0.5⌋ with hn
  have hn0 : 0 ≤ n := by
    rw [hn]
    exact Int.le_floor.mpr (by exact_mod_cast hc)
  have hnR : (0 : ℝ) ≤ (n : ℝ) := by exact_mod_cast hn0
  have hdiv : ((n : ℝ) * h) / h + 0.5 = (n : ℝ) + 0.5 := by
    rw [mul_div_cancel_right₀ _ (ne_of_gt hh)]
  rw [hdiv, itrunc_floor (by linarith)]
  have h05 : (⌊(1/2 : ℝ)⌋ : ℤ) = 0 := by norm_num [Int.floor_eq_iff]
  rw [show (0.5 : ℝ) = 1/2 from by norm_num, Int.floor_int_add, h05, add_zero]

/-- C8 amended: whenever snap succeeds, each coordinate of the result is an
exact integer multiple of the spacing; and snap is idempotent provided each
scaled coordinate satisfies p.c/h + 1/2 ≥ 0 with positive spacing (for
negative snapped indices idempotence fails, see the counterexample). -/
theorem C8_snap_idempotent_nonneg (s : Surface) (p : Point) (hne : s.data ≠ [])
    (hh : 0 < s.h) (hx : 0 ≤ p.x / s.h + 0.5) (hy : 0 ≤ p.y / s.h + 0.5)
    (hz : 0 ≤ p.z / s.h + 0.5) :
    (∃ a b c : ℤ, s.snap p =
      Except.ok ⟨(a : ℝ) * s.h, (b : ℝ) * s.h, (c : ℝ) * s.h⟩) ∧
    (s.snap p).bind s.snap = s.snap p := by
  have hlen : ¬s.data.length = 0 := fun hc => hne (List.length_eq_zero.mp hc)
  have hfst : s.snap p = Except.ok
      (⟨snapCoord s.h p.x, snapCoord s.h p.y, snapCoord s.h p.z⟩ : Point) := by
    unfold Surface.snap
    rw [if_neg hlen]
  constructor
  · exact ⟨itrunc (p.x / s.h + 0.5), itrunc (p.y / s.h + 0.5),
      itrunc (p.z / s.h + 0.5), hfst⟩
  · have hsnd : s.snap
        (⟨snapCoord s.h p.x, snapCoord s.h p.y, snapCoord s.h p.z⟩ : Point) =
        Except.ok (⟨snapCoord s.h p.x, snapCoord s.h p.y, snapCoord s.h p.z⟩ : Point) := by
      unfold Surface.snap
      rw [if_neg hlen]
      show Except.ok (⟨snapCoord s.h (snapCoord s.h p.x),
        snapCoord s.h (snapCoord s.h p.y),
        snapCoord s.h (snapCoord s.h p.z)⟩ : Point) = _
      rw [snapCoord_idem hh hx, snapCoord_idem hh hy, snapCoord_idem hh hz]
    rw [hfst]
    show s.snap (⟨snapCoord s.h p.x, snapCoord s.h p.y, snapCoord s.h p.z⟩ : Point) =
      Except.ok (⟨snapCoord s.h p.x, snapCoord s.h p.y, snapCoord s.h p.z⟩ : Point)
    exact hsnd

/-- Witness for C8's amended statement on `surf1` at (1/4, 0, 0). -/
theorem C8_snap_idempotent_nonneg_witness :
    (∃ a b c : ℤ, surf1.snap ⟨1/4, 0, 0⟩ =
      Except.ok ⟨(a : ℝ) * surf1.h, (b : ℝ) * surf1.h, (c : ℝ) * surf1.h⟩) ∧
    (surf1.snap ⟨1/4, 0, 0⟩).bind surf1.snap = surf1.snap ⟨1/4, 0, 0⟩ :=
  C8_snap_idempotent_nonneg surf1 ⟨1/4, 0, 0⟩ surf1_ne_nil
    (by show (0:ℝ) < 1; norm_num)
    (by show (0:ℝ) ≤ 1/4 / 1 + 0.5; norm_num)
    (by show (0:ℝ) ≤ 0 / 1 + 0.5; norm_num)
    (by show (0:ℝ) ≤ 0 / 1 + 0.5; norm_num)

/-- C9 amended: after move-construction or move-assignment the source is left
with zero points and no point storage — so `snap` on it fails — but the code
does not clear the source's `_phi` or `_h`: the source keeps its field and
spacing (and `project` on it can still succeed, see the counterexample). -/
theorem C9_move_source_state (s : Surface) (p : Point) :
    (moveCtor s).2.data = [] ∧ (moveCtor s).2.phi = s.phi ∧
    (moveCtor s).2.h = s.h ∧ (moveCtor s).2.snap p = Except.error snapErr ∧
    (∀ d : Surface, (moveAssign d s).2.data = [] ∧
      (moveAssign d s).2.phi = s.phi ∧ (moveAssign d s).2.h = s.h ∧
      (moveAssign d s).2.snap p = Except.error snapErr) := by
  refine ⟨rfl, rfl, rfl, ?_, fun d => ⟨rfl, rfl, rfl, ?_⟩⟩
  · unfold Surface.snap
    rw [if_pos (show (moveCtor s).2.data.length = 0 from rfl)]
  · unfold Surface.snap
    rw [if_pos (show (moveAssign d s).2.data.length = 0 from rfl)]

/-- C9 counterexample: move-constructing from the field-built Surface `surfE`
(retained field phi0, spacing 1) leaves a source that still has its retained
field, and `project` on that moved-from source succeeds — contradicting the
claim that the source is field-less with project failing. -/
theorem C9_counterexample :
    (moveCtor surfE).2.phi ≠ none ∧
    ((moveCtor surfE).2.project ⟨0, 0, 0⟩).isOk = true := by
  constructor
  · show (some phi0 : Option (ℝ → ℝ → ℝ → ℝ)) ≠ none
    exact Option.some_ne_none _
  · rw [project_eq_of_some (rfl : (moveCtor surfE).2.phi = some phi0) ⟨0, 0, 0⟩,
      if_neg (by show ¬(1 : ℝ) = 0; norm_num)]
    rfl

/-- C10: copy-construction and copy-assignment copy only the point data: the
copy-constructed surface and the copy-assigned default surface have no
retained field and zero spacing — `project` on them throws the configuration
error — while project on the original (field-built, h > 0) succeeds;
copy-assignment in general leaves the destination's own field and spacing
untouched. -/
theorem C10_copy_drops_field (f : ℝ → ℝ → ℝ → ℝ) (x y z : Interval) (h : ℝ)
    (hh : 0 < h) (p : Point) :
    (copyCtor (surfaceFromField f x y z h)).phi = none ∧
    (copyCtor (surfaceFromField f x y z h)).h = 0 ∧
    (copyCtor (surfaceFromField f x y z h)).data = (surfaceFromField f x y z h).data ∧
    (copyCtor (surfaceFromField f x y z h)).project p = Except.error projectErr ∧
    ((surfaceFromField f x y z h).project p).isOk = true ∧
    (∀ d : Surface, (copyAssign d (surfaceFromField f x y z h)).data =
        (surfaceFromField f x y z h).data ∧
      (copyAssign d (surfaceFromField f x y z h)).phi = d.phi ∧
      (copyAssign d (surfaceFromField f x y z h)).h = d.h) ∧
    (copyAssign defaultSurface (surfaceFromField f x y z h)).phi = none ∧
    (copyAssign defaultSurface (surfaceFromField f x y z h)).h = 0 ∧
    (copyAssign defaultSurface (surfaceFromField f x y z h)).project p =
      Except.error projectErr := by
  refine ⟨rfl, rfl, rfl, ?_, ?_, fun d => ⟨rfl, rfl, rfl⟩, rfl, rfl, ?_⟩
  · exact project_eq_of_none rfl p
  · rw [project_eq_of_some (rfl : (surfaceFromField f x y z h).phi = some f) p,
      if_neg (show ¬(surfaceFromField f x y z h).h = 0 from ne_of_gt hh)]
    rfl
  · exact project_eq_of_none rfl p

/-- Witness for C10 with the concrete field phi0 over [0,1]³, h = 1, at the
origin. -/
theorem C10_copy_drops_field_witness :
    (copyCtor (surfaceFromField phi0 I01 I01 I01 1)).phi = none ∧
    (copyCtor (surfaceFromField phi0 I01 I01 I01 1)).h = 0 ∧
    (copyCtor (surfaceFromField phi0 I01 I01 I01 1)).data =
      (surfaceFromField phi0 I01 I01 I01 1).data ∧
    (copyCtor (surfaceFromField phi0 I01 I01 I01 1)).project ⟨0, 0, 0⟩ =
      Except.error projectErr ∧
    ((surfaceFromField phi0 I01 I01 I01 1).project ⟨0, 0, 0⟩).isOk = true ∧
    (∀ d : Surface, (copyAssign d (surfaceFromField phi0 I01 I01 I01 1)).data =
        (surfaceFromField phi0 I01 I01 I01 1).data ∧
      (copyAssign d (surfaceFromField phi0 I01 I01 I01 1)).phi = d.phi ∧
      (copyAssign d (surfaceFromField phi0 I01 I01 I01 1)).h = d.h) ∧
    (copyAssign defaultSurface (surfaceFromField phi0 I01 I01 I01 1)).phi = none ∧
    (copyAssign defaultSurface (surfaceFromField phi0 I01 I01 I01 1)).h = 0 ∧
    (copyAssign defaultSurface (surfaceFromField phi0 I01 I01 I01 1)).project ⟨0, 0, 0⟩ =
      Except.error projectErr :=
  C10_copy_drops_field phi0 I01 I01 I01 1 (by norm_num) ⟨0, 0, 0⟩

end

end RWalk
